import Mathlib

/-!
Shallow embedding of the clinic appointment scheduling core
(`controllers/appointmentController.js`, models `appointment.js`,
`patient.js`, `doctor.js`) and proofs about its create/edit operations.

Modelling conventions:
* MongoDB ObjectIds are `Nat`.
* A JavaScript `Date` instant is `Option Int` (`none` = Invalid Date, the
  `NaN`-valued date produced e.g. by `new Date("2025-03-10Tundefined")`);
  a valid instant is milliseconds since the epoch.
* The date string `fecha` ("YYYY-MM-DD") is represented by its day number
  `d : Int`, so `new Date(fecha)` is the instant `d * 86400000`; the time
  string `hora` ("HH:MM") is represented by its milliseconds-of-day
  `h : Nat` (`h < 86400000` for every string matching the HH:MM validator),
  so `new Date(`fecha`T`hora`)` is the instant `d * 86400000 + h`.
* The store holds the three collections as lists; `findById` is `List.find?`
  on the id field, `countDocuments`/`findOne` are filters over the list.
* The edit path's mongoose transaction is embedded by threading a tentative
  store through the steps; `abortTransaction` = returning `Except.error`
  (no tentative store escapes), `commitTransaction` = returning the final
  store in `Except.ok`.
-/

/-- Appointment lifecycle states, from `appointmentSchema.estado`'s enum. -/
inductive Estado where
  | pendiente
  | confirmado
  | cancelado
  | completado
deriving DecidableEq, Repr

/-- A JavaScript `Date`: `none` is Invalid Date (time value `NaN`). -/
def JSDate : Type := Option Int
deriving DecidableEq, Repr

/-- The valid instant for epoch-milliseconds `t`. -/
def JSDate.val (t : Int) : JSDate := some t

/-- The Invalid Date. -/
def JSDate.invalid : JSDate := none

/-- `new Date(`${fecha}T${hora}`)` for day number `d` and time-of-day `h`. -/
def jsCombine (d : Int) (h : Nat) : Int := d * 86400000 + h

/-- Start of the calendar day containing instant `t`
(`setHours(0,0,0,0)` on a valid date). -/
def dayStart (t : Int) : Int := t - t.emod 86400000

/-- `setHours(0, 0, 0, 0)`: Invalid Date stays invalid. -/
def jsSetHoursStart (x : JSDate) : JSDate := Option.map dayStart x

/-- `setHours(23, 59, 59, 999)`: Invalid Date stays invalid. -/
def jsSetHoursEnd (x : JSDate) : JSDate := Option.map (fun t => dayStart t + 86399999) x

/-- Equality match of a stored `Date` field against a query value. A query
never actually runs with an Invalid Date value: mongoose rejects the cast
of an Invalid Date with a CastError before querying (see the guard in
`editAppointment`), so the `none` branches below (a stored Invalid Date,
unreachable through the embedded operations) just match nothing. -/
def jsDateEq (a b : JSDate) : Bool :=
  match a, b with
  | some x, some y => x == y
  | _, _ => false

/-- `{ $gte: lo, $lte: hi }` range match of a stored `Date` field. As with
`jsDateEq`, Invalid-Date bounds are never actually queried — mongoose's
cast rejects them first (see `editAppointment`) — and a stored Invalid
Date, unreachable through the embedded operations, matches no window. -/
def jsDateInRange (x lo hi : JSDate) : Bool :=
  match x, lo, hi with
  | some x, some lo, some hi => decide (lo ≤ x) && decide (x ≤ hi)
  | _, _, _ => false

/-- A patient record (`patientSchema` plus the `turnos` back-reference list
manipulated by the appointment controller's `$pull`/`$push` updates).
Identity attributes (nombre, dni, cobertura) play no role in the claims
and are omitted. -/
structure Paciente where
  id : Nat
  turnos : List Nat
deriving DecidableEq, Repr

/-- A doctor record (`doctorSchema`: `activo : Boolean`, `especialidad`,
plus the `turnos` back-reference list manipulated by the appointment
controller). Other identity attributes are omitted. -/
structure Doctor where
  id : Nat
  activo : Bool
  especialidad : String
  turnos : List Nat
deriving DecidableEq, Repr

/-- An appointment record (`appointmentSchema`): references to patient and
doctor, the combined `fecha` instant, the separate `hora` time-of-day
field, the `estado`, and the `especialidad` field the edit path assigns
on doctor reassignment (absent on creation). -/
structure Turno where
  id : Nat
  paciente : Nat
  doctor : Nat
  fecha : JSDate
  hora : Nat
  estado : Estado
  especialidad : Option String
deriving DecidableEq, Repr

/-- The persistent store: the three MongoDB collections. -/
structure Store where
  pacientes : List Paciente
  doctores : List Doctor
  turnos : List Turno
deriving DecidableEq, Repr

/-- `HttpError(message, errorCode)` from `utils/errors/http-error.js`. -/
structure HttpError where
  message : String
  code : Nat
deriving DecidableEq, Repr

/-- `new HttpError('Paciente no encontrado.', 404)` (create and edit). -/
def errPacienteNotFound : HttpError := ⟨"Paciente no encontrado.", 404⟩

/-- `new HttpError('Doctor no encontrado.', 404)` (create). -/
def errDoctorNotFound : HttpError := ⟨"Doctor no encontrado.", 404⟩

/-- `new HttpError('El doctor ya tiene 8 turnos confirmados en esta fecha.', 400)`. -/
def errCreateCapacity : HttpError := ⟨"El doctor ya tiene 8 turnos confirmados en esta fecha.", 400⟩

/-- `new HttpError('Turno no encontrado.', 404)` (edit). -/
def errTurnoNotFound : HttpError := ⟨"Turno no encontrado.", 404⟩

/-- `new HttpError('Actualizaciones inválidas para el turno.', 400)`. -/
def errInvalidUpdate : HttpError := ⟨"Actualizaciones invalidas para el turno.", 400⟩

/-- `new HttpError('El doctor ya tiene un turno en esa fecha y hora.', 400)`. -/
def errSlotConflict : HttpError := ⟨"El doctor ya tiene un turno en esa fecha y hora.", 400⟩

/-- `new HttpError('El doctor ya tiene 10 turnos en ese día.', 422)`. -/
def errEditCapacity : HttpError := ⟨"El doctor ya tiene 10 turnos en ese dia.", 422⟩

/-- `new HttpError('Doctor no encontrado o inactivo.', 400)`. -/
def errDoctorInactive : HttpError := ⟨"Doctor no encontrado o inactivo.", 400⟩

/-- `new HttpError('No se pudo editar el turno. Intente nuevamente.', 500)`:
the edit path's catch-all — any exception inside the transaction (such as
mongoose's CastError on an Invalid Date) aborts the session and surfaces
as this generic 500. -/
def errEditFailed : HttpError := ⟨"No se pudo editar el turno. Intente nuevamente.", 500⟩

deriving instance DecidableEq for Except

/-- `Paciente.findById(id)`. -/
def findPaciente (s : Store) (pid : Nat) : Option Paciente :=
  s.pacientes.find? (fun p => p.id == pid)

/-- `Doctor.findById(id)`. -/
def findDoctor (s : Store) (did : Nat) : Option Doctor :=
  s.doctores.find? (fun d => d.id == did)

/-- `Appointment.findById(id)`. -/
def findTurno (s : Store) (tid : Nat) : Option Turno :=
  s.turnos.find? (fun t => t.id == tid)

/-- `Appointment.countDocuments({ doctor, fecha: { $gte: startOfDay, $lte:
endOfDay }, estado: 'confirmado' })`: the create path's daily load query. -/
def countConfirmadoInDay (s : Store) (did : Nat) (lo hi : JSDate) : Nat :=
  (s.turnos.filter (fun t =>
    t.doctor == did && jsDateInRange t.fecha lo hi && t.estado == Estado.confirmado)).length

/-- `new Appointment({ paciente, doctor, fecha: inputDate, hora, estado })`:
the document the create path inserts (`estado` already carries the
destructuring default `'confirmado'` when the body omitted it). -/
def nuevoTurno (patientObj : Paciente) (doctorObj : Doctor) (fecha : Int) (hora : Nat)
    (estado : Option Estado) (newId : Nat) : Turno :=
  { id := newId
    paciente := patientObj.id
    doctor := doctorObj.id
    fecha := JSDate.val (jsCombine fecha hora)
    hora := hora
    estado := estado.getD Estado.confirmado
    especialidad := none }

/--
`createAppointment` (appointment controller): resolves patient and doctor,
combines `fecha`/`hora` into one instant, enforces the 8-confirmed-per-day
cap, and inserts the new appointment (state defaulting to `'confirmado'`).
`newId` stands for the ObjectId MongoDB generates for the insert.
The express-validator step (`turnoValidator`) is outside this function.
-/
def createAppointment (s : Store) (paciente doctor : Nat) (fecha : Int) (hora : Nat)
    (estado : Option Estado) (newId : Nat) : Except HttpError (Turno × Store) :=
  match findPaciente s paciente with
  | none => .error errPacienteNotFound
  | some patientObj =>
    match findDoctor s doctor with
    | none => .error errDoctorNotFound
    | some doctorObj =>
      if countConfirmadoInDay s doctor
          (jsSetHoursStart (JSDate.val (jsCombine fecha hora)))
          (jsSetHoursEnd (JSDate.val (jsCombine fecha hora))) ≥ 8 then
        .error errCreateCapacity
      else
        .ok (nuevoTurno patientObj doctorObj fecha hora estado newId,
          { s with turnos := s.turnos ++ [nuevoTurno patientObj doctorObj fecha hora estado newId] })

/-- The edit request body `req.body`: the five destructured fields (absent
keys are `none`) plus the names of any other keys present in the body. -/
structure Patch where
  paciente : Option Nat
  doctor : Option Nat
  fecha : Option Int
  hora : Option Nat
  estado : Option Estado
  extra : List String
deriving DecidableEq, Repr

/-- `const camposPermitidos = ['paciente', 'doctor', 'fecha', 'estado']`. -/
def camposPermitidos : List String := ["paciente", "doctor", "fecha", "estado"]

/-- The five key names the destructuring
`const { paciente, doctor, fecha, hora, estado } = req.body` picks up;
`Patch.extra` holds the body's keys outside this set. -/
def knownKeys : List String := ["paciente", "doctor", "fecha", "hora", "estado"]

/-- `Object.keys(req.body)`. -/
def bodyKeys (p : Patch) : List String :=
  (if p.paciente.isSome then ["paciente"] else []) ++
  (if p.doctor.isSome then ["doctor"] else []) ++
  (if p.fecha.isSome then ["fecha"] else []) ++
  (if p.hora.isSome then ["hora"] else []) ++
  (if p.estado.isSome then ["estado"] else []) ++
  p.extra.filter (fun k => !(knownKeys.contains k))

/-- `Object.keys(req.body).filter(campo => camposPermitidos.includes(campo))`. -/
def actualizaciones (p : Patch) : List String :=
  (bodyKeys p).filter (fun campo => camposPermitidos.contains campo)

/-- The guard `!actualizaciones.every(campo => camposPermitidos.includes(campo))`
deciding the `Actualizaciones inválidas` failure. -/
def invalidUpdateCheck (p : Patch) : Bool :=
  !((actualizaciones p).all (fun campo => camposPermitidos.contains campo))

/-- `const nuevaFecha = fecha ? new Date(`${fecha}T${hora}`) : turno.fecha`:
when `fecha` is supplied but `hora` is not, the template string ends in
`Tundefined` and the result is Invalid Date. -/
def computeNuevaFecha (p : Patch) (turno : Turno) : JSDate :=
  match p.fecha with
  | some d =>
    match p.hora with
    | some h => JSDate.val (jsCombine d h)
    | none => JSDate.invalid
  | none => turno.fecha

/-- `Appointment.findOne({ doctor: idDoctor, fecha: nuevaFecha,
_id: { $ne: turno._id } })` viewed as "a conflicting document exists".
Note the query has no `estado` filter. -/
def slotTaken (s : Store) (idDoctor : Nat) (nuevaFecha : JSDate) (selfId : Nat) : Bool :=
  s.turnos.any (fun t => t.doctor == idDoctor && jsDateEq t.fecha nuevaFecha && t.id != selfId)

/-- `Appointment.countDocuments({ doctor: idDoctor, fecha: { $gte:
inicioDelDia, $lte: finDelDia }, _id: { $ne: turno._id } })`: the edit
path's daily load query, over every state. -/
def countInDayExcl (s : Store) (idDoctor : Nat) (lo hi : JSDate) (selfId : Nat) : Nat :=
  (s.turnos.filter (fun t =>
    t.doctor == idDoctor && jsDateInRange t.fecha lo hi && t.id != selfId)).length

/-- `Paciente.updateOne({ _id: pid }, { $pull: { turnos: tid } })`:
`$pull` removes every occurrence of `tid` from the array. -/
def pacientePull (s : Store) (pid tid : Nat) : Store :=
  { s with pacientes := s.pacientes.map (fun p =>
      if p.id == pid then { p with turnos := p.turnos.filter (fun x => x != tid) } else p) }

/-- `updateOne` on patient `pid` with `{ $push: { turnos: tid } }`:
`$push` appends `tid` to the array. -/
def pacientePush (s : Store) (pid tid : Nat) : Store :=
  { s with pacientes := s.pacientes.map (fun p =>
      if p.id == pid then { p with turnos := p.turnos ++ [tid] } else p) }

/-- `Doctor.updateOne({ _id: did }, { $pull: { turnos: tid } })`. -/
def doctorPull (s : Store) (did tid : Nat) : Store :=
  { s with doctores := s.doctores.map (fun d =>
      if d.id == did then { d with turnos := d.turnos.filter (fun x => x != tid) } else d) }

/-- `updateOne` on doctor `did` with `{ $push: { turnos: tid } }`. -/
def doctorPush (s : Store) (did tid : Nat) : Store :=
  { s with doctores := s.doctores.map (fun d =>
      if d.id == did then { d with turnos := d.turnos ++ [tid] } else d) }

/-- JavaScript strict equality `b === 'activo'` where `b` holds the schema's
Boolean `activo` field: a boolean is never strictly equal to a string, so
this is false for both `true` and `false`. -/
def jsBoolEqStrActivo (_b : Bool) : Bool := false

/-- `turno.save({ session })`: replace the document with this id. The
`fecha` being saved is always a valid instant: an Invalid effective date
already failed mongoose's cast at the first query (see the guard in
`editAppointment`), before any save could run. -/
def saveTurno (s : Store) (t : Turno) : Store :=
  { s with turnos := s.turnos.map (fun u => if u.id == t.id then t else u) }

/-- Edit step 5 — patient reassignment (`if (paciente &&
!turno.paciente._id.equals(paciente))`): resolve the new patient, `$pull`
the appointment id from the old patient's list, `$push` it onto the new
patient's list, and point the appointment at the new patient. -/
def stepPaciente (s : Store) (p : Patch) (turno : Turno) : Except HttpError (Store × Turno) :=
  match p.paciente with
  | some pac =>
    if pac != turno.paciente then
      match findPaciente s pac with
      | none => .error errPacienteNotFound
      | some nuevoPaciente =>
        .ok (pacientePush (pacientePull s turno.paciente turno.id) nuevoPaciente.id turno.id,
          { turno with paciente := nuevoPaciente.id })
    else .ok (s, turno)
  | none => .ok (s, turno)

/-- Edit step 6 — doctor reassignment (`if (doctor &&
!turno.doctor._id.equals(doctor))`): fail when the doctor is absent or
`nuevoDoctor.activo !== 'activo'`; otherwise `$pull`/`$push` the doctor
back-references and update the appointment's doctor and especialidad.
Since `activo` is a Boolean, `nuevoDoctor.activo !== 'activo'` holds for
every found doctor (see `jsBoolEqStrActivo`). -/
def stepDoctor (s : Store) (p : Patch) (turno : Turno) : Except HttpError (Store × Turno) :=
  match p.doctor with
  | some doc =>
    if doc != turno.doctor then
      match findDoctor s doc with
      | none => .error errDoctorInactive
      | some nuevoDoctor =>
        if jsBoolEqStrActivo nuevoDoctor.activo then
          .ok (doctorPush (doctorPull s turno.doctor turno.id) nuevoDoctor.id turno.id,
            { turno with doctor := nuevoDoctor.id,
                         especialidad := some nuevoDoctor.especialidad })
        else .error errDoctorInactive
    else .ok (s, turno)
  | none => .ok (s, turno)

/-- Edit step 7 — apply `fecha` and `estado` to the document when those
keys survived the allow-list filter (`actualizaciones.includes(...)`). -/
def applyCampos (p : Patch) (nuevaFecha : JSDate) (turno : Turno) : Turno :=
  let t1 := if (actualizaciones p).contains "fecha" then { turno with fecha := nuevaFecha } else turno
  if (actualizaciones p).contains "estado" then { t1 with estado := p.estado.getD t1.estado } else t1

/--
`editAppointment` (appointment controller): allow-list check, load, slot
conflict check, daily-cap check, patient reassignment, doctor
reassignment, field application, save — all inside one transaction.
Returning `.error` embeds `abortTransaction` (no tentative write
escapes); returning `.ok` embeds `commitTransaction`.
When the effective `nuevaFecha` is the Invalid Date, the first store call
that touches it — the slot-conflict `findOne` — fails mongoose's `Date`
cast with a CastError; the controller's `catch` aborts the transaction
and answers the generic `No se pudo editar el turno` 500. That path is
the guard right after the load below.
-/
def editAppointment (s : Store) (p : Patch) (id : Nat) : Except HttpError (Turno × Store) :=
  if invalidUpdateCheck p then .error errInvalidUpdate
  else
    match findTurno s id with
    | none => .error errTurnoNotFound
    | some turno =>
      if computeNuevaFecha p turno = JSDate.invalid then
        .error errEditFailed
      else if slotTaken s (p.doctor.getD turno.doctor) (computeNuevaFecha p turno) turno.id then
        .error errSlotConflict
      else if countInDayExcl s (p.doctor.getD turno.doctor)
          (jsSetHoursStart (computeNuevaFecha p turno))
          (jsSetHoursEnd (computeNuevaFecha p turno)) turno.id ≥ 10 then
        .error errEditCapacity
      else
        match stepPaciente s p turno with
        | .error e => .error e
        | .ok (s1, t1) =>
          match stepDoctor s1 p t1 with
          | .error e => .error e
          | .ok (s2, t2) =>
            .ok (applyCampos p (computeNuevaFecha p turno) t2,
              saveTurno s2 (applyCampos p (computeNuevaFecha p turno) t2))

/-- The observable persisted store after an `editAppointment` request:
the session's writes become visible only through `commitTransaction`;
every failure path runs `abortTransaction`, leaving the committed store. -/
def editPersisted (s : Store) (p : Patch) (id : Nat) : Store :=
  match editAppointment s p id with
  | .ok (_, s') => s'
  | .error _ => s

/-- An empty patch (every key absent). -/
def Patch.empty : Patch := ⟨none, none, none, none, none, []⟩

example :
    createAppointment ⟨[⟨1, []⟩], [⟨2, true, "clinica", []⟩], []⟩ 1 2 0 32400000 none 7 =
      .ok (⟨7, 1, 2, some 32400000, 32400000, Estado.confirmado, none⟩,
        ⟨[⟨1, []⟩], [⟨2, true, "clinica", []⟩],
          [⟨7, 1, 2, some 32400000, 32400000, Estado.confirmado, none⟩]⟩) := by
  decide

example :
    editAppointment
      ⟨[⟨1, [7]⟩], [⟨2, true, "clinica", [7]⟩, ⟨3, true, "pediatria", []⟩],
        [⟨7, 1, 2, some 32400000, 32400000, Estado.confirmado, none⟩]⟩
      { Patch.empty with doctor := some 3 } 7 = .error errDoctorInactive := by
  decide

example :
    editAppointment
      ⟨[⟨1, [7]⟩], [⟨2, true, "clinica", [7]⟩],
        [⟨7, 1, 2, some 32400000, 32400000, Estado.confirmado, none⟩]⟩
      { Patch.empty with extra := ["foo"] } 7 =
      .ok (⟨7, 1, 2, some 32400000, 32400000, Estado.confirmado, none⟩,
        ⟨[⟨1, [7]⟩], [⟨2, true, "clinica", [7]⟩],
          [⟨7, 1, 2, some 32400000, 32400000, Estado.confirmado, none⟩]⟩) := by
  decide

example :
    editAppointment
      ⟨[⟨1, [7]⟩], [⟨2, true, "clinica", [7]⟩],
        [⟨7, 1, 2, some 32400000, 32400000, Estado.confirmado, none⟩]⟩
      { Patch.empty with fecha := some 1 } 7 = .error errEditFailed := by
  decide

/-! ## Helper lemmas about the edit pipeline -/

theorem invalidUpdateCheck_eq_false (p : Patch) : invalidUpdateCheck p = false := by
  simp only [invalidUpdateCheck, actualizaciones, Bool.not_eq_false', List.all_eq_true,
    List.mem_filter]
  intro campo hcampo
  exact hcampo.2

theorem stepPaciente_error {s : Store} {p : Patch} {t : Turno} {e : HttpError}
    (h : stepPaciente s p t = .error e) : e = errPacienteNotFound := by
  unfold stepPaciente at h
  split at h <;> try simp_all
  split at h <;> try simp_all
  split at h <;> simp_all

theorem stepDoctor_error {s : Store} {p : Patch} {t : Turno} {e : HttpError}
    (h : stepDoctor s p t = .error e) : e = errDoctorInactive := by
  unfold stepDoctor at h
  split at h <;> try simp_all
  split at h <;> try simp_all
  split at h <;> simp_all [jsBoolEqStrActivo]

theorem stepDoctor_ok {s s' : Store} {p : Patch} {t t' : Turno}
    (h : stepDoctor s p t = .ok (s', t')) : s' = s ∧ t' = t := by
  unfold stepDoctor at h
  split at h <;> try simp_all
  split at h <;> try simp_all
  split at h <;> simp_all [jsBoolEqStrActivo]

theorem stepPaciente_ok_frame {s s' : Store} {p : Patch} {t t' : Turno}
    (h : stepPaciente s p t = .ok (s', t')) :
    s'.turnos = s.turnos ∧ s'.doctores = s.doctores ∧
    t'.id = t.id ∧ t'.doctor = t.doctor ∧ t'.fecha = t.fecha ∧
    t'.hora = t.hora ∧ t'.estado = t.estado ∧ t'.especialidad = t.especialidad := by
  unfold stepPaciente at h
  split at h <;> try simp_all
  split at h <;> try simp_all
  split at h <;> try simp_all [pacientePush, pacientePull]
  obtain ⟨hs, ht⟩ := h
  subst hs
  subst ht
  simp

theorem not_mem_extraFilter {p : Patch} {k : String} (hk : knownKeys.contains k = true) :
    k ∉ p.extra.filter (fun x => !(knownKeys.contains x)) := by
  intro hmem
  rcases List.mem_filter.mp hmem with ⟨-, hcond⟩
  rw [hk] at hcond
  simp at hcond

theorem mem_bodyKeys_fecha (p : Patch) : "fecha" ∈ bodyKeys p ↔ p.fecha.isSome := by
  have hextra := not_mem_extraFilter (p := p) (k := "fecha") (by decide)
  cases hpa : p.paciente <;> cases hdo : p.doctor <;> cases hfe : p.fecha <;>
    cases hho : p.hora <;> cases hes : p.estado <;>
    simp_all [bodyKeys]

theorem mem_bodyKeys_estado (p : Patch) : "estado" ∈ bodyKeys p ↔ p.estado.isSome := by
  have hextra := not_mem_extraFilter (p := p) (k := "estado") (by decide)
  cases hpa : p.paciente <;> cases hdo : p.doctor <;> cases hfe : p.fecha <;>
    cases hho : p.hora <;> cases hes : p.estado <;>
    simp_all [bodyKeys]

theorem actualizaciones_contains_fecha (p : Patch) :
    (actualizaciones p).contains "fecha" = p.fecha.isSome := by
  have h := mem_bodyKeys_fecha p
  cases hfe : p.fecha <;>
    simp_all [actualizaciones, List.elem_iff, List.mem_filter, camposPermitidos]

theorem actualizaciones_contains_estado (p : Patch) :
    (actualizaciones p).contains "estado" = p.estado.isSome := by
  have h := mem_bodyKeys_estado p
  cases hes : p.estado <;>
    simp_all [actualizaciones, List.elem_iff, List.mem_filter, camposPermitidos]

theorem applyCampos_frame (p : Patch) (f : JSDate) (t : Turno) :
    (applyCampos p f t).id = t.id ∧ (applyCampos p f t).paciente = t.paciente ∧
    (applyCampos p f t).doctor = t.doctor ∧ (applyCampos p f t).hora = t.hora ∧
    (applyCampos p f t).especialidad = t.especialidad := by
  unfold applyCampos
  split <;> split <;> simp

/-- Whether or not the patch carries `fecha`, the saved document's `fecha`
is the effective `nuevaFecha` (when absent, `nuevaFecha` is the original
`fecha` and the field is simply not rewritten). -/
theorem applyCampos_fecha_computeNuevaFecha (p : Patch) (t0 t : Turno)
    (hfe : t.fecha = t0.fecha) :
    (applyCampos p (computeNuevaFecha p t0) t).fecha = computeNuevaFecha p t0 := by
  unfold applyCampos
  have hc := actualizaciones_contains_fecha p
  cases hfecha : p.fecha <;> rw [hfecha] at hc <;>
    simp only [Option.isSome_none, Option.isSome_some] at hc <;>
    simp only [hc, Bool.false_eq_true, if_false, if_true] <;>
    split <;> simp [computeNuevaFecha, hfecha, hfe]

/-- Success shape of `editAppointment`: the appointment was found, the slot
and cap checks passed, the patient step succeeded, the doctor step was the
identity (cf. `stepDoctor_ok`), and the result is the field-updated
document saved into the patient-step store. -/
theorem editAppointment_ok_elim {s s' : Store} {p : Patch} {id : Nat} {t' : Turno}
    (h : editAppointment s p id = .ok (t', s')) :
    ∃ turno s1 t1,
      findTurno s id = some turno ∧
      slotTaken s (p.doctor.getD turno.doctor) (computeNuevaFecha p turno) turno.id = false ∧
      countInDayExcl s (p.doctor.getD turno.doctor)
        (jsSetHoursStart (computeNuevaFecha p turno))
        (jsSetHoursEnd (computeNuevaFecha p turno)) turno.id < 10 ∧
      stepPaciente s p turno = .ok (s1, t1) ∧
      stepDoctor s1 p t1 = .ok (s1, t1) ∧
      t' = applyCampos p (computeNuevaFecha p turno) t1 ∧
      s' = saveTurno s1 t' := by
  unfold editAppointment at h
  rw [invalidUpdateCheck_eq_false] at h
  simp only [Bool.false_eq_true, if_false] at h
  split at h
  next => simp at h
  next turno hfind =>
    split at h
    next hval => simp at h
    next hval =>
      split at h
      next hslot => simp at h
      next hslot =>
        rw [Bool.not_eq_true] at hslot
        split at h
        next hcount => simp at h
        next hcount =>
          split at h
          next e hpac => simp at h
          next s1 t1 hpac =>
            split at h
            next e hdoc => simp at h
            next s2 t2 hdoc =>
              obtain ⟨hs2, ht2⟩ := stepDoctor_ok hdoc
              rw [hs2, ht2] at h
              rw [hs2, ht2] at hdoc
              simp only [Except.ok.injEq, Prod.mk.injEq] at h
              obtain ⟨ht', hs'⟩ := h
              refine ⟨turno, s1, t1, hfind, hslot, by omega, hpac, hdoc, ht'.symm, ?_⟩
              rw [← ht']
              exact hs'.symm

/-! ## Concrete fixtures used by witnesses and counterexamples -/

/-- A store with patients 1 (holding appointment 7) and 5, doctors 2
(active, appointment 7) and 3 (active, no appointments), and one confirmed
appointment 7 of patient 1 with doctor 2 at 09:00 of day 0. -/
def demoStore : Store :=
  ⟨[⟨1, [7]⟩, ⟨5, []⟩],
   [⟨2, true, "clinica", [7]⟩, ⟨3, true, "pediatria", []⟩],
   [⟨7, 1, 2, some 32400000, 32400000, Estado.confirmado, none⟩]⟩

/-- A patch reassigning both the patient (to 5) and the doctor (to 3). -/
def demoPatchReassign : Patch := { Patch.empty with paciente := some 5, doctor := some 3 }

/-! ## Claim C8 -/

/-- C8: for every `createAppointment` call whose `estado` argument is
unspecified (the destructuring default `estado = 'confirmado'` applies),
if the call succeeds the created appointment's state is `confirmado`. -/
theorem createAppointment_default_estado_confirmado
    {s s' : Store} {paciente doctor : Nat} {fecha : Int} {hora newId : Nat} {t : Turno}
    (h : createAppointment s paciente doctor fecha hora none newId = .ok (t, s')) :
    t.estado = Estado.confirmado := by
  unfold createAppointment at h
  split at h
  next => simp at h
  next patientObj hpat =>
    split at h
    next => simp at h
    next doctorObj hdoc =>
      split at h
      next => simp at h
      next =>
        simp only [Except.ok.injEq, Prod.mk.injEq] at h
        rw [← h.1]
        rfl

/-- Witness for C8 at a concrete input: creating appointment 9 for patient 5
and doctor 3 with no `estado` argument succeeds, and the theorem yields
state `confirmado`. -/
theorem createAppointment_default_estado_confirmado_witness :
    (createAppointment demoStore 5 3 0 36000000 none 9).map (fun x => x.1.estado) =
      .ok Estado.confirmado ∧
    (⟨9, 5, 3, some 36000000, 36000000, Estado.confirmado, none⟩ : Turno).estado =
      Estado.confirmado :=
  ⟨by decide,
    @createAppointment_default_estado_confirmado demoStore
      { demoStore with
        turnos := demoStore.turnos ++
          [⟨9, 5, 3, some 36000000, 36000000, Estado.confirmado, none⟩] }
      5 3 0 36000000 9
      ⟨9, 5, 3, some 36000000, 36000000, Estado.confirmado, none⟩
      (by decide)⟩

/-! ## Claim C4 -/

/-- C4: every `editAppointment` request that fails at any checked step —
including a doctor-reassignment failure after the patient-reassignment
writes already ran inside the transaction — persists nothing: the
committed store is exactly the pre-call store (every appointment record
and every patient/doctor back-reference list included). -/
theorem editAppointment_error_persists_nothing
    (s : Store) (p : Patch) (id : Nat) (e : HttpError)
    (h : editAppointment s p id = .error e) :
    editPersisted s p id = s := by
  unfold editPersisted
  rw [h]

/-- Witness for C4 at the concrete step-6-after-step-5 scenario: the patch
reassigns patient 1→5 (step 5 runs its `$pull`/`$push` writes in the
session) and doctor 2→3 (step 6 then fails with `DoctorInactive`); the
persisted store is unchanged. -/
theorem editAppointment_error_persists_nothing_witness :
    editAppointment demoStore demoPatchReassign 7 = .error errDoctorInactive ∧
    editPersisted demoStore demoPatchReassign 7 = demoStore :=
  ⟨by decide,
    editAppointment_error_persists_nothing demoStore demoPatchReassign 7 errDoctorInactive
      (by decide)⟩

/-! ## Claim C1 -/

/-- C1 fails on the code: doctor 3 exists in the store and its Boolean
`activo` field is `true`, yet the edit naming doctor 3 (different from the
appointment's current doctor 2) fails with `Doctor no encontrado o
inactivo`, because the guard compares the Boolean `activo` with the string
`'activo'` (`nuevoDoctor.activo !== 'activo'` is true for every Boolean).
No back-reference swap or specialty update ever happens. -/
theorem editAppointment_active_doctor_reassign_fails :
    findDoctor demoStore 3 = some ⟨3, true, "pediatria", []⟩ ∧
    (⟨3, true, "pediatria", []⟩ : Doctor).activo = true ∧
    editAppointment demoStore { Patch.empty with doctor := some 3 } 7 =
      .error errDoctorInactive ∧
    editPersisted demoStore { Patch.empty with doctor := some 3 } 7 = demoStore := by
  decide

/-! ## Claim C3 -/

/-- C3 fails on the code: the allow-list guard filters the body's keys by
`camposPermitidos` before checking them against `camposPermitidos`, so it
can never fire, and a patch containing the unknown field `foo` is accepted
(the edit succeeds and simply ignores it) instead of failing with
`Actualizaciones inválidas`. -/
theorem editAppointment_unknown_field_not_rejected :
    (∀ q : Patch, invalidUpdateCheck q = false) ∧
    editAppointment demoStore { Patch.empty with extra := ["foo"] } 7 =
      .ok (⟨7, 1, 2, some 32400000, 32400000, Estado.confirmado, none⟩, demoStore) :=
  ⟨invalidUpdateCheck_eq_false, by decide⟩

/-- `editAppointment` never produces the `Actualizaciones inválidas` error:
the allow-list guard is decided by `invalidUpdateCheck`, which is false for
every patch. -/
theorem editAppointment_ne_invalidUpdate (s : Store) (p : Patch) (id : Nat) :
    editAppointment s p id ≠ .error errInvalidUpdate := by
  intro h
  unfold editAppointment at h
  rw [invalidUpdateCheck_eq_false] at h
  simp only [Bool.false_eq_true, if_false] at h
  split at h
  next => exact absurd h (by decide)
  next turno hfind =>
    split at h
    next => exact absurd h (by decide)
    next =>
      split at h
      next => exact absurd h (by decide)
      next =>
        split at h
        next => exact absurd h (by decide)
        next =>
          split at h
          next e hpac =>
            have he := stepPaciente_error hpac
            subst he
            exact absurd h (by decide)
          next s1 t1 hpac =>
            split at h
            next e hdoc =>
              have he := stepDoctor_error hdoc
              subst he
              exact absurd h (by decide)
            next s2 t2 hdoc => simp at h

/-- The patch `{fecha: "<day 1>"}` with no `hora` key. -/
def fechaOnlyPatch : Patch := { Patch.empty with fecha := some 1 }

/-! ## Claim C9 -/

/-- C9 fails on the code: a successful edit that supplies both `fecha` and
`hora` stores the combined instant into `fecha` but never rewrites the
separate `hora` field. Moving appointment 7 from 09:00 to 10:30 of day 0
succeeds and leaves `hora` at 09:00 (32400000 ms) instead of the patch's
10:30 (37800000 ms). -/
theorem editAppointment_hora_stale_counterexample :
    (editAppointment demoStore { Patch.empty with fecha := some 0, hora := some 37800000 } 7).map
        (fun x => (x.1.fecha, x.1.hora)) = .ok (some 37800000, 32400000) ∧
    (32400000 : Nat) ≠ 37800000 := by
  exact ⟨by decide, by decide⟩

/-- C9 amended: for every successful edit whose patch supplies both `fecha`
and `hora`, the stored appointment's `fecha` equals the instant combining
the patch's date and time, while the separate `hora` field is left
unchanged (it keeps the pre-edit value, not the patch's time). -/
theorem editAppointment_fecha_applied_hora_stale
    {s s' : Store} {p : Patch} {id : Nat} {d : Int} {hr : Nat} {t0 t' : Turno}
    (hfe : p.fecha = some d) (hho : p.hora = some hr)
    (hfind : findTurno s id = some t0)
    (h : editAppointment s p id = .ok (t', s')) :
    t'.fecha = JSDate.val (jsCombine d hr) ∧ t'.hora = t0.hora := by
  obtain ⟨turno, s1, t1, hfind', hslot, hcount, hpac, hdoc, ht', hs'⟩ :=
    editAppointment_ok_elim h
  rw [hfind] at hfind'
  injection hfind' with hturno
  subst hturno
  have hframe := stepPaciente_ok_frame hpac
  constructor
  · rw [ht', applyCampos_fecha_computeNuevaFecha p t0 t1 hframe.2.2.2.2.1]
    unfold computeNuevaFecha
    rw [hfe, hho]
  · rw [ht', (applyCampos_frame p (computeNuevaFecha p t0) t1).2.2.2.1]
    exact hframe.2.2.2.2.2.1

/-- The patch `{fecha: "<day 0>", hora: "10:30"}`. -/
def c9Patch : Patch := { Patch.empty with fecha := some 0, hora := some 37800000 }

/-- The document produced by editing appointment 7 of `demoStore` with
`c9Patch`: new combined instant, stale `hora`. -/
def c9Turno : Turno := ⟨7, 1, 2, some 37800000, 32400000, Estado.confirmado, none⟩

/-- Witness for the amended C9 at a concrete input. -/
theorem editAppointment_fecha_applied_hora_stale_witness :
    (c9Patch.fecha = some 0 ∧ c9Patch.hora = some 37800000 ∧
      findTurno demoStore 7 =
        some ⟨7, 1, 2, some 32400000, 32400000, Estado.confirmado, none⟩ ∧
      editAppointment demoStore c9Patch 7 =
        .ok (c9Turno, { demoStore with turnos := [c9Turno] })) ∧
    (c9Turno.fecha = JSDate.val (jsCombine 0 37800000) ∧ c9Turno.hora = 32400000) :=
  ⟨⟨rfl, rfl, by decide, by decide⟩,
    @editAppointment_fecha_applied_hora_stale demoStore
      { demoStore with turnos := [c9Turno] } c9Patch 7 0 37800000
      ⟨7, 1, 2, some 32400000, 32400000, Estado.confirmado, none⟩
      c9Turno rfl rfl (by decide) (by decide)⟩

/-- Reduction of `editAppointment` once the appointment is loaded: the
allow-list guard never fires and the remaining pipeline is exposed. -/
theorem editAppointment_found (s : Store) (p : Patch) (id : Nat) (t0 : Turno)
    (hfind : findTurno s id = some t0) :
    editAppointment s p id =
      (if computeNuevaFecha p t0 = JSDate.invalid then
        .error errEditFailed
      else if slotTaken s (p.doctor.getD t0.doctor) (computeNuevaFecha p t0) t0.id then
        .error errSlotConflict
      else if countInDayExcl s (p.doctor.getD t0.doctor)
          (jsSetHoursStart (computeNuevaFecha p t0))
          (jsSetHoursEnd (computeNuevaFecha p t0)) t0.id ≥ 10 then
        .error errEditCapacity
      else
        match stepPaciente s p t0 with
        | .error e => .error e
        | .ok (s1, t1) =>
          match stepDoctor s1 p t1 with
          | .error e => .error e
          | .ok (s2, t2) =>
            .ok (applyCampos p (computeNuevaFecha p t0) t2,
              saveTurno s2 (applyCampos p (computeNuevaFecha p t0) t2))) := by
  unfold editAppointment
  rw [invalidUpdateCheck_eq_false, hfind]
  rfl

/-- The slot-conflict query finds a document iff another appointment — of
any state — sits at the exact effective doctor/instant. -/
theorem slotTaken_iff_exists (s : Store) (d : Nat) (f : JSDate) (selfId : Nat) :
    slotTaken s d f selfId = true ↔
      ∃ u ∈ s.turnos, u.id ≠ selfId ∧ u.doctor = d ∧ jsDateEq u.fecha f = true := by
  simp only [slotTaken, List.any_eq_true, Bool.and_eq_true, beq_iff_eq, bne_iff_ne]
  constructor
  · rintro ⟨u, hu, ⟨hdoc, hfec⟩, hid⟩
    exact ⟨u, hu, hid, hdoc, hfec⟩
  · rintro ⟨u, hu, hid, hdoc, hfec⟩
    exact ⟨u, hu, ⟨hdoc, hfec⟩, hid⟩

theorem jsDateEq_invalid_right (x : JSDate) : jsDateEq x JSDate.invalid = false := by
  cases x <;> rfl

theorem jsDateInRange_invalid_lo (x hi : JSDate) :
    jsDateInRange x JSDate.invalid hi = false := by
  cases x <;> cases hi <;> rfl

theorem jsSetHoursStart_invalid : jsSetHoursStart JSDate.invalid = JSDate.invalid := rfl

theorem jsSetHoursEnd_invalid : jsSetHoursEnd JSDate.invalid = JSDate.invalid := rfl

theorem countInDayExcl_invalid_lo (s : Store) (d selfId : Nat) (hi : JSDate) :
    countInDayExcl s d JSDate.invalid hi selfId = 0 := by
  unfold countInDayExcl
  simp only [List.length_eq_zero, List.filter_eq_nil_iff]
  intro t ht
  simp [jsDateInRange_invalid_lo]

/-! ## Claim C6 -/

/-- A store where doctor 2 has a cancelled appointment 7 at 10:00 of day 0
and a confirmed appointment 8 at 00:00 of day 0. -/
def c6Store : Store :=
  ⟨[⟨1, [7, 8]⟩],
   [⟨2, true, "clinica", [7, 8]⟩],
   [⟨7, 1, 2, some 36000000, 36000000, Estado.cancelado, none⟩,
    ⟨8, 1, 2, some 0, 0, Estado.confirmado, none⟩]⟩

/-- C6 fails on the code: the edit slot-conflict query has no `estado`
filter, so a slot occupied only by a cancelled appointment still blocks
the edit. Every appointment other than 8 at doctor 2's 10:00-day-0 slot in
`c6Store` is cancelled, yet moving appointment 8 there fails with
`SlotConflict` — the claim says such a collision does not block the edit. -/
theorem editAppointment_cancelled_blocks_counterexample :
    ((c6Store.turnos.filter (fun t =>
        t.id != 8 && t.doctor == 2 && jsDateEq t.fecha (some 36000000))).all
      (fun t => t.estado == Estado.cancelado)) = true ∧
    ((c6Store.turnos.filter (fun t =>
        t.id != 8 && t.doctor == 2 && jsDateEq t.fecha (some 36000000))).length = 1) ∧
    editAppointment c6Store { Patch.empty with fecha := some 0, hora := some 36000000 } 8 =
      .error errSlotConflict := by
  decide

/-- C6 amended: for every edit of a loaded appointment, the result is the
`SlotConflict` failure iff some appointment other than the one being
edited — of any state, cancelled included — exists for the effective
doctor at the exact effective instant; in particular re-submitting the
appointment's own slot passes the check (its own id is excluded). -/
theorem editAppointment_slotConflict_iff
    {s : Store} {p : Patch} {id : Nat} {t0 : Turno}
    (hfind : findTurno s id = some t0) :
    editAppointment s p id = .error errSlotConflict ↔
      ∃ u ∈ s.turnos, u.id ≠ t0.id ∧ u.doctor = p.doctor.getD t0.doctor ∧
        jsDateEq u.fecha (computeNuevaFecha p t0) = true := by
  rw [editAppointment_found s p id t0 hfind]
  by_cases hval : computeNuevaFecha p t0 = JSDate.invalid
  · rw [if_pos hval]
    constructor
    · intro h
      exact absurd h (by decide)
    · rintro ⟨u, -, -, -, hfec⟩
      rw [hval, jsDateEq_invalid_right] at hfec
      exact absurd hfec (by decide)
  · rw [if_neg hval]
    constructor
    · intro h
      by_cases hs : slotTaken s (p.doctor.getD t0.doctor) (computeNuevaFecha p t0) t0.id = true
      · exact (slotTaken_iff_exists s (p.doctor.getD t0.doctor) (computeNuevaFecha p t0) t0.id).mp hs
      · exfalso
        rw [if_neg hs] at h
        split at h
        next => exact absurd h (by decide)
        next =>
          split at h
          next e hpac =>
            have he := stepPaciente_error hpac
            subst he
            exact absurd h (by decide)
          next s1 t1 hpac =>
            split at h
            next e hdoc =>
              have he := stepDoctor_error hdoc
              subst he
              exact absurd h (by decide)
            next s2 t2 hdoc => simp at h
    · intro hex
      rw [if_pos ((slotTaken_iff_exists s (p.doctor.getD t0.doctor)
        (computeNuevaFecha p t0) t0.id).mpr hex)]

/-- The appointment record held by `demoStore`. -/
def demoTurno : Turno := ⟨7, 1, 2, some 32400000, 32400000, Estado.confirmado, none⟩

/-- The patch re-submitting `demoTurno`'s own current slot
(day 0, 09:00). -/
def ownSlotPatch : Patch := { Patch.empty with fecha := some 0, hora := some 32400000 }

/-- Witness for the amended C6 at a concrete input: re-submitting
appointment 7's own current slot on `demoStore` is not a conflict (the
search excludes the edited id), and the edit indeed succeeds. -/
theorem editAppointment_slotConflict_iff_witness :
    (findTurno demoStore 7 = some demoTurno) ∧
    (editAppointment demoStore ownSlotPatch 7 = .error errSlotConflict ↔
      ∃ u ∈ demoStore.turnos, u.id ≠ demoTurno.id ∧
        u.doctor = ownSlotPatch.doctor.getD demoTurno.doctor ∧
        jsDateEq u.fecha (computeNuevaFecha ownSlotPatch demoTurno) = true) ∧
    (editAppointment demoStore ownSlotPatch 7).isOk = true :=
  ⟨by decide,
    @editAppointment_slotConflict_iff demoStore ownSlotPatch 7 demoTurno (by decide),
    by decide⟩

/-! ## Claim C10 -/

/-- C10 fails on the code's real store semantics: a date-only patch does
produce `new Date(`${fecha}Tundefined`)` = Invalid Date, but mongoose
rejects that value's `Date` cast at the first query; the transaction
aborts and the request fails with the generic 500, so concretely the
patch IS rejected, no query ever matches on the invalid value and nothing
is stored — making the claim's "not rejected … used in the queries and
stored on success" false at this input. -/
theorem editAppointment_fecha_sin_hora_counterexample :
    editAppointment demoStore fechaOnlyPatch 7 = .error errEditFailed ∧
    editPersisted demoStore fechaOnlyPatch 7 = demoStore := by
  exact ⟨by decide, by decide⟩

/-- C10 amended: a patch that supplies `fecha` but omits `hora` is not
rejected by the allow-list check (never `Actualizaciones inválidas`) and
does not keep the existing time: the effective `nuevaFecha` is the
Invalid Date, whose cast CastError aborts the transaction at the first
query — the request fails with the generic `No se pudo editar el turno`
500 and nothing is persisted. -/
theorem editAppointment_fecha_sin_hora
    {s : Store} {p : Patch} {id : Nat} {d : Int} {t0 : Turno}
    (hfe : p.fecha = some d) (hho : p.hora = none)
    (hfind : findTurno s id = some t0) :
    computeNuevaFecha p t0 = JSDate.invalid ∧
    editAppointment s p id ≠ .error errInvalidUpdate ∧
    editAppointment s p id = .error errEditFailed ∧
    editPersisted s p id = s := by
  have hnf : computeNuevaFecha p t0 = JSDate.invalid := by
    unfold computeNuevaFecha
    rw [hfe, hho]
  have hfail : editAppointment s p id = .error errEditFailed := by
    rw [editAppointment_found s p id t0 hfind, if_pos hnf]
  refine ⟨hnf, ?_, hfail, ?_⟩
  · rw [hfail]
    decide
  · unfold editPersisted
    rw [hfail]

/-- Witness for the amended C10 at a concrete input: on `demoStore`,
editing appointment 7 with a date-only patch computes the Invalid Date,
is never an `InvalidUpdate` failure, fails with the generic 500 and
leaves the store untouched. -/
theorem editAppointment_fecha_sin_hora_witness :
    (fechaOnlyPatch.fecha = some 1 ∧ fechaOnlyPatch.hora = none ∧
      findTurno demoStore 7 = some demoTurno) ∧
    (computeNuevaFecha fechaOnlyPatch demoTurno = JSDate.invalid ∧
      editAppointment demoStore fechaOnlyPatch 7 ≠ .error errInvalidUpdate ∧
      editAppointment demoStore fechaOnlyPatch 7 = .error errEditFailed ∧
      editPersisted demoStore fechaOnlyPatch 7 = demoStore) :=
  ⟨⟨rfl, rfl, by decide⟩,
    @editAppointment_fecha_sin_hora demoStore fechaOnlyPatch 7 1 demoTurno rfl rfl (by decide)⟩

/-! ## Claim C5 -/

/-- Reduction of `createAppointment` once patient and doctor resolve. -/
theorem createAppointment_found (s : Store) (paciente doctor : Nat) (fecha : Int)
    (hora : Nat) (estado : Option Estado) (newId : Nat) {po : Paciente} {dobj : Doctor}
    (hp : findPaciente s paciente = some po) (hd : findDoctor s doctor = some dobj) :
    createAppointment s paciente doctor fecha hora estado newId =
      (if countConfirmadoInDay s doctor
          (jsSetHoursStart (JSDate.val (jsCombine fecha hora)))
          (jsSetHoursEnd (JSDate.val (jsCombine fecha hora))) ≥ 8 then
        .error errCreateCapacity
      else
        .ok (nuevoTurno po dobj fecha hora estado newId,
          { s with turnos := s.turnos ++ [nuevoTurno po dobj fecha hora estado newId] })) := by
  unfold createAppointment
  rw [hp, hd]

/-- C5: with patient and doctor resolved, `createAppointment` fails with the
create-capacity error iff the doctor already holds at least 8 *confirmed*
appointments inside the requested instant's day window
(setHours 00:00:00.000 – 23:59:59.999), and below 8 it succeeds; with the
appointment loaded and the slot free, `editAppointment` fails with the
edit-capacity error iff the effective doctor already holds at least 10
appointments of *any* state — the edited one excluded — inside the
effective instant's day window. -/
theorem capacity_caps_create8_edit10
    (s : Store) (paciente doctor : Nat) (fecha : Int) (hora : Nat)
    (estado : Option Estado) (newId : Nat) (po : Paciente) (dobj : Doctor)
    (hp : findPaciente s paciente = some po) (hd : findDoctor s doctor = some dobj)
    (sE : Store) (p : Patch) (idE : Nat) (t0 : Turno)
    (hfind : findTurno sE idE = some t0)
    (hslot : slotTaken sE (p.doctor.getD t0.doctor) (computeNuevaFecha p t0) t0.id = false) :
    (createAppointment s paciente doctor fecha hora estado newId = .error errCreateCapacity ↔
      8 ≤ countConfirmadoInDay s doctor
        (jsSetHoursStart (JSDate.val (jsCombine fecha hora)))
        (jsSetHoursEnd (JSDate.val (jsCombine fecha hora)))) ∧
    (countConfirmadoInDay s doctor
        (jsSetHoursStart (JSDate.val (jsCombine fecha hora)))
        (jsSetHoursEnd (JSDate.val (jsCombine fecha hora))) < 8 →
      createAppointment s paciente doctor fecha hora estado newId =
        .ok (nuevoTurno po dobj fecha hora estado newId,
          { s with turnos := s.turnos ++ [nuevoTurno po dobj fecha hora estado newId] })) ∧
    (editAppointment sE p idE = .error errEditCapacity ↔
      10 ≤ countInDayExcl sE (p.doctor.getD t0.doctor)
        (jsSetHoursStart (computeNuevaFecha p t0))
        (jsSetHoursEnd (computeNuevaFecha p t0)) t0.id) := by
  refine ⟨?_, ?_, ?_⟩
  · rw [createAppointment_found s paciente doctor fecha hora estado newId hp hd]
    constructor
    · intro h
      by_cases hc : countConfirmadoInDay s doctor
          (jsSetHoursStart (JSDate.val (jsCombine fecha hora)))
          (jsSetHoursEnd (JSDate.val (jsCombine fecha hora))) ≥ 8
      · exact hc
      · rw [if_neg hc] at h
        simp at h
    · intro hc
      rw [if_pos hc]
  · intro hlt
    rw [createAppointment_found s paciente doctor fecha hora estado newId hp hd,
      if_neg (by omega)]
  · rw [editAppointment_found sE p idE t0 hfind]
    by_cases hval : computeNuevaFecha p t0 = JSDate.invalid
    · rw [if_pos hval]
      constructor
      · intro h
        exact absurd h (by decide)
      · intro hc
        exfalso
        rw [hval, jsSetHoursStart_invalid, countInDayExcl_invalid_lo] at hc
        omega
    · rw [if_neg hval]
      have hs' : ¬ (slotTaken sE (p.doctor.getD t0.doctor) (computeNuevaFecha p t0) t0.id = true) := by
        rw [hslot]
        simp
      rw [if_neg hs']
      constructor
      · intro h
        by_cases hc : countInDayExcl sE (p.doctor.getD t0.doctor)
            (jsSetHoursStart (computeNuevaFecha p t0))
            (jsSetHoursEnd (computeNuevaFecha p t0)) t0.id ≥ 10
        · exact hc
        · exfalso
          rw [if_neg hc] at h
          split at h
          next e hpac =>
            have he := stepPaciente_error hpac
            subst he
            exact absurd h (by decide)
          next s1 t1 hpac =>
            split at h
            next e hdoc =>
              have he := stepDoctor_error hdoc
              subst he
              exact absurd h (by decide)
            next s2 t2 hdoc => simp at h
      · intro hc
        rw [if_pos hc]

/-- A confirmed appointment of doctor 2 at 01:00 of day 0 (id 21). -/
def capTurno : Turno := ⟨21, 1, 2, some 3600000, 3600000, Estado.confirmado, none⟩

/-- A store where doctor 2 already holds 8 confirmed appointments on
day 0 (01:00 through 08:00). -/
def capStore : Store :=
  ⟨[⟨1, []⟩],
   [⟨2, true, "clinica", []⟩],
   [capTurno,
    ⟨22, 1, 2, some 7200000, 7200000, Estado.confirmado, none⟩,
    ⟨23, 1, 2, some 10800000, 10800000, Estado.confirmado, none⟩,
    ⟨24, 1, 2, some 14400000, 14400000, Estado.confirmado, none⟩,
    ⟨25, 1, 2, some 18000000, 18000000, Estado.confirmado, none⟩,
    ⟨26, 1, 2, some 21600000, 21600000, Estado.confirmado, none⟩,
    ⟨27, 1, 2, some 25200000, 25200000, Estado.confirmado, none⟩,
    ⟨28, 1, 2, some 28800000, 28800000, Estado.confirmado, none⟩]⟩

/-- Witness for C5 at concrete inputs: on `capStore` (8 confirmed
appointments for doctor 2 on day 0) a 9th create at 09:00 hits the
create-side cap iff 8 ≤ 8, and a no-op edit of appointment 21 (7 other
appointments that day) hits the edit-side cap iff 10 ≤ 7. -/
theorem capacity_caps_create8_edit10_witness :
    (findPaciente capStore 1 = some ⟨1, []⟩ ∧
      findDoctor capStore 2 = some ⟨2, true, "clinica", []⟩ ∧
      findTurno capStore 21 = some capTurno ∧
      slotTaken capStore (Patch.empty.doctor.getD capTurno.doctor)
        (computeNuevaFecha Patch.empty capTurno) capTurno.id = false) ∧
    ((createAppointment capStore 1 2 0 32400000 none 99 = .error errCreateCapacity ↔
        8 ≤ countConfirmadoInDay capStore 2
          (jsSetHoursStart (JSDate.val (jsCombine 0 32400000)))
          (jsSetHoursEnd (JSDate.val (jsCombine 0 32400000)))) ∧
      (countConfirmadoInDay capStore 2
          (jsSetHoursStart (JSDate.val (jsCombine 0 32400000)))
          (jsSetHoursEnd (JSDate.val (jsCombine 0 32400000))) < 8 →
        createAppointment capStore 1 2 0 32400000 none 99 =
          .ok (nuevoTurno ⟨1, []⟩ ⟨2, true, "clinica", []⟩ 0 32400000 none 99,
            { capStore with turnos := capStore.turnos ++
                [nuevoTurno ⟨1, []⟩ ⟨2, true, "clinica", []⟩ 0 32400000 none 99] })) ∧
      (editAppointment capStore Patch.empty 21 = .error errEditCapacity ↔
        10 ≤ countInDayExcl capStore (Patch.empty.doctor.getD capTurno.doctor)
          (jsSetHoursStart (computeNuevaFecha Patch.empty capTurno))
          (jsSetHoursEnd (computeNuevaFecha Patch.empty capTurno)) capTurno.id)) :=
  ⟨⟨by decide, by decide, by decide, by decide⟩,
    capacity_caps_create8_edit10 capStore 1 2 0 32400000 none 99 ⟨1, []⟩
      ⟨2, true, "clinica", []⟩ (by decide) (by decide) capStore Patch.empty 21 capTurno
      (by decide) (by decide)⟩

/-! ## Claim C7 -/

/-- All appointment ids in the store are distinct (MongoDB `_id`s). -/
def TurnoIdsNodup (s : Store) : Prop := (s.turnos.map (fun t => t.id)).Nodup

/-- Half of the spec's invariant 3, on the patient side: every id in a
patient's back-reference list names an appointment that references that
patient. -/
def PacienteBackrefSound (s : Store) : Prop :=
  ∀ pac ∈ s.pacientes, ∀ tid ∈ pac.turnos, ∃ t ∈ s.turnos, t.id = tid ∧ t.paciente = pac.id

instance (s : Store) : Decidable (TurnoIdsNodup s) := by
  unfold TurnoIdsNodup
  infer_instance

instance (s : Store) : Decidable (PacienteBackrefSound s) := by
  unfold PacienteBackrefSound
  infer_instance

theorem findTurno_mem {s : Store} {tid : Nat} {t0 : Turno}
    (h : findTurno s tid = some t0) : t0 ∈ s.turnos ∧ t0.id = tid := by
  unfold findTurno at h
  refine ⟨List.mem_of_find?_eq_some h, ?_⟩
  have := List.find?_some h
  simpa using this

theorem findPaciente_mem {s : Store} {pid : Nat} {po : Paciente}
    (h : findPaciente s pid = some po) : po ∈ s.pacientes ∧ po.id = pid := by
  unfold findPaciente at h
  refine ⟨List.mem_of_find?_eq_some h, ?_⟩
  have := List.find?_some h
  simpa using this

theorem turno_id_unique {s : Store} (hnd : TurnoIdsNodup s) {t1 t2 : Turno}
    (h1 : t1 ∈ s.turnos) (h2 : t2 ∈ s.turnos) (hid : t1.id = t2.id) : t1 = t2 :=
  List.inj_on_of_nodup_map hnd h1 h2 hid

theorem stepPaciente_reassign {s s' : Store} {p : Patch} {t t' : Turno} {pac : Nat}
    (hp : p.paciente = some pac) (hne : pac ≠ t.paciente)
    (h : stepPaciente s p t = .ok (s', t')) :
    ∃ nP, findPaciente s pac = some nP ∧
      s' = pacientePush (pacientePull s t.paciente t.id) nP.id t.id ∧
      t' = { t with paciente := nP.id } := by
  unfold stepPaciente at h
  split at h
  next pac' hpac' =>
    rw [hp] at hpac'
    injection hpac' with hpp
    subst hpp
    split at h
    next hcond =>
      split at h
      next => simp at h
      next nP hfindp =>
        simp only [Except.ok.injEq, Prod.mk.injEq] at h
        exact ⟨nP, hfindp, h.1.symm, h.2.symm⟩
    next hcond =>
      simp at hcond
      exact absurd hcond hne
  next hpac' =>
    rw [hp] at hpac'
    simp at hpac'

theorem stepDoctor_ok_doctor_eq {s s' : Store} {p : Patch} {t t' : Turno}
    (h : stepDoctor s p t = .ok (s', t')) {d : Nat} (hd : p.doctor = some d) :
    d = t.doctor := by
  unfold stepDoctor at h
  split at h
  next doc hdoc' =>
    rw [hd] at hdoc'
    injection hdoc' with hdd
    subst hdd
    split at h
    next hcond =>
      split at h
      next => simp at h
      next nd hfindd => simp [jsBoolEqStrActivo] at h
    next hcond =>
      simp at hcond
      exact hcond
  next hdoc' =>
    rw [hd] at hdoc'
    simp at hdoc'

/-- Effect of the `$pull`-from-old / `$push`-onto-new patient update pair:
assuming the new id differs from the old one and no patient record with
the new id held the appointment id before, afterwards every record with
the old id no longer lists it and every record with the new id lists it
exactly once. -/
theorem pacientes_pull_push_swap
    (s : Store) (oldPid newPid tid : Nat) (hne : newPid ≠ oldPid)
    (hclean : ∀ q ∈ s.pacientes, q.id = newPid → tid ∉ q.turnos) :
    (∀ q ∈ (pacientePush (pacientePull s oldPid tid) newPid tid).pacientes,
      q.id = oldPid → tid ∉ q.turnos) ∧
    (∀ q ∈ (pacientePush (pacientePull s oldPid tid) newPid tid).pacientes,
      q.id = newPid → q.turnos.count tid = 1) := by
  have hne' : oldPid ≠ newPid := fun hh => hne hh.symm
  constructor
  · intro q hq hqid
    simp only [pacientePush, pacientePull, List.map_map, List.mem_map, Function.comp] at hq
    obtain ⟨q1, hq1mem, heq⟩ := hq
    by_cases h1 : q1.id = oldPid
    · simp only [h1, beq_self_eq_true, if_true, beq_iff_eq, hne', if_false] at heq
      rw [← heq]
      intro hmem
      have := (List.mem_filter.mp hmem).2
      simp at this
    · simp only [beq_iff_eq, h1, if_false] at heq
      by_cases h2 : q1.id = newPid
      · simp only [h2, if_true] at heq
        rw [← heq] at hqid
        exact absurd hqid hne
      · simp only [h2, if_false] at heq
        rw [← heq] at hqid
        exact absurd hqid h1
  · intro q hq hqid
    simp only [pacientePush, pacientePull, List.map_map, List.mem_map, Function.comp] at hq
    obtain ⟨q1, hq1mem, heq⟩ := hq
    by_cases h1 : q1.id = oldPid
    · simp only [h1, beq_self_eq_true, if_true, beq_iff_eq, hne', if_false] at heq
      rw [← heq] at hqid
      exact absurd hqid hne'
    · simp only [beq_iff_eq, h1, if_false] at heq
      by_cases h2 : q1.id = newPid
      · simp only [h2, if_true] at heq
        rw [← heq]
        have hnotin : tid ∉ q1.turnos := hclean q1 hq1mem h2
        simp [List.count_append, List.count_eq_zero.mpr hnotin]
      · simp only [h2, if_false] at heq
        rw [← heq] at hqid
        exact absurd hqid h2

/-- A store satisfying the C7 invariants, used by its witness. -/
def c7Store : Store := demoStore

/-- The patch reassigning the patient of appointment 7 from 1 to 5. -/
def c7Patch : Patch := { Patch.empty with paciente := some 5 }

/-- The store produced by that edit: appointment 7 moved from patient 1's
list to patient 5's list. -/
def c7StoreAfter : Store :=
  ⟨[⟨1, []⟩, ⟨5, [7]⟩],
   [⟨2, true, "clinica", [7]⟩, ⟨3, true, "pediatria", []⟩],
   [⟨7, 5, 2, some 32400000, 32400000, Estado.confirmado, none⟩]⟩

/-- Slot exclusivity: no two (distinct positions of) appointments are both
non-cancelled with the same doctor and the same valid `fecha` instant (an
Invalid-Date `fecha` occupies no slot). -/
def slotExclusive (s : Store) : Prop :=
  s.turnos.Pairwise (fun t1 t2 =>
    ¬(t1.estado ≠ Estado.cancelado ∧ t2.estado ≠ Estado.cancelado ∧
      t1.doctor = t2.doctor ∧ t1.fecha = t2.fecha ∧ t1.fecha ≠ JSDate.invalid))

instance (s : Store) : Decidable (slotExclusive s) := by
  unfold slotExclusive
  infer_instance

/-- A store with one patient, one doctor and no appointments. -/
def emptySlotStore : Store := ⟨[⟨1, []⟩], [⟨2, true, "clinica", []⟩], []⟩

/-- The store after one create at doctor 2's 10:00-day-0 slot. -/
def dupStore1 : Store :=
  { emptySlotStore with
    turnos := [⟨11, 1, 2, some 36000000, 36000000, Estado.confirmado, none⟩] }

/-- The store after a second, identical create: two confirmed appointments
in the very same slot. -/
def dupStore2 : Store :=
  { emptySlotStore with
    turnos := [⟨11, 1, 2, some 36000000, 36000000, Estado.confirmado, none⟩,
               ⟨12, 1, 2, some 36000000, 36000000, Estado.confirmado, none⟩] }

/-- C2 fails on the code: starting from a store satisfying every invariant,
two successful `createAppointment` calls for the same doctor, date and
time both succeed (the create path never checks slot uniqueness), leaving
two non-cancelled appointments in one slot. -/
theorem createAppointment_breaks_slotExclusive :
    slotExclusive emptySlotStore ∧
    createAppointment emptySlotStore 1 2 0 36000000 none 11 =
      .ok (⟨11, 1, 2, some 36000000, 36000000, Estado.confirmado, none⟩, dupStore1) ∧
    createAppointment dupStore1 1 2 0 36000000 none 12 =
      .ok (⟨12, 1, 2, some 36000000, 36000000, Estado.confirmado, none⟩, dupStore2) ∧
    ¬ slotExclusive dupStore2 := by
  exact ⟨by decide, by decide, by decide, by decide⟩

theorem jsDateEq_refl {f : JSDate} (h : f ≠ JSDate.invalid) : jsDateEq f f = true := by
  cases hf : f with
  | none => exact absurd hf h
  | some x => simp [jsDateEq]

/-- One edit request (`editPersisted`) preserves distinctness of
appointment ids and slot exclusivity. -/
theorem editPersisted_preserves_invariants (s : Store) (p : Patch) (id : Nat)
    (hnd : TurnoIdsNodup s) (hex : slotExclusive s) :
    TurnoIdsNodup (editPersisted s p id) ∧ slotExclusive (editPersisted s p id) := by
  unfold editPersisted
  cases hres : editAppointment s p id with
  | error e => exact ⟨hnd, hex⟩
  | ok pair =>
    obtain ⟨t', s'⟩ := pair
    obtain ⟨t0, s1, t1, hfind, hslot, hcount, hpac, hdoc, ht', hs'⟩ :=
      editAppointment_ok_elim hres
    have hframe := stepPaciente_ok_frame hpac
    have hid : t'.id = t0.id := by
      rw [ht', (applyCampos_frame p (computeNuevaFecha p t0) t1).1, hframe.2.2.1]
    have hdoceq : t'.doctor = p.doctor.getD t0.doctor := by
      have h1 : t'.doctor = t0.doctor := by
        rw [ht', (applyCampos_frame p (computeNuevaFecha p t0) t1).2.2.1, hframe.2.2.2.1]
      cases hpd : p.doctor with
      | none =>
        rw [h1]
        simp
      | some d =>
        have hd2 : d = t1.doctor := stepDoctor_ok_doctor_eq hdoc hpd
        rw [hframe.2.2.2.1] at hd2
        rw [h1, hd2]
        simp
    have hfec : t'.fecha = computeNuevaFecha p t0 := by
      rw [ht']
      exact applyCampos_fecha_computeNuevaFecha p t0 t1 hframe.2.2.2.2.1
    have hsturnos : s'.turnos = s.turnos.map (fun u => if u.id == t0.id then t' else u) := by
      rw [hs']
      show s1.turnos.map (fun u => if u.id == t'.id then t' else u) = _
      rw [hframe.1, hid]
    constructor
    · unfold TurnoIdsNodup
      rw [hsturnos, List.map_map]
      have hfun : ((fun t => t.id) ∘ fun u => if u.id == t0.id then t' else u) =
          fun u : Turno => u.id := by
        funext u
        by_cases hu : u.id = t0.id
        · simp [Function.comp, hu, hid]
        · simp [Function.comp, hu]
      rw [hfun]
      exact hnd
    · unfold slotExclusive
      rw [hsturnos, List.pairwise_map]
      have hnd' : s.turnos.Pairwise (fun a b => a.id ≠ b.id) := by
        unfold TurnoIdsNodup at hnd
        exact List.pairwise_map.mp hnd
      have hcomb := hex.and hnd'
      refine List.Pairwise.imp_of_mem ?_ hcomb
      intro a b hamem hbmem hab
      obtain ⟨hnc, hidne⟩ := hab
      by_cases ha : a.id = t0.id
      · have hb : ¬ b.id = t0.id := fun hh => hidne (ha.trans hh.symm)
        simp only [ha, beq_self_eq_true, if_true, beq_iff_eq, hb, if_false]
        rintro ⟨-, -, hdoc2, hfec2, hval⟩
        have htrue : slotTaken s (p.doctor.getD t0.doctor) (computeNuevaFecha p t0) t0.id = true := by
          rw [slotTaken_iff_exists]
          refine ⟨b, hbmem, hb, ?_, ?_⟩
          · rw [← hdoc2, hdoceq]
          · rw [← hfec2, ← hfec]
            exact jsDateEq_refl (by rw [hfec2] at hval ⊢; exact hval)
        rw [hslot] at htrue
        cases htrue
      · by_cases hb : b.id = t0.id
        · simp only [beq_iff_eq, ha, if_false, hb, beq_self_eq_true, if_true]
          rintro ⟨-, -, hdoc2, hfec2, hval⟩
          have htrue : slotTaken s (p.doctor.getD t0.doctor) (computeNuevaFecha p t0) t0.id = true := by
            rw [slotTaken_iff_exists]
            refine ⟨a, hamem, fun hh => ha hh, ?_, ?_⟩
            · rw [hdoc2, hdoceq]
            · rw [hfec2, ← hfec]
              exact jsDateEq_refl (hfec2 ▸ hval)
          rw [hslot] at htrue
          cases htrue
        · simp only [beq_iff_eq, ha, hb, if_false]
          exact hnc

/-- A sequence of edit requests applied to the committed store: each
successful `editAppointment` commits its result, each failed one leaves
the store unchanged. -/
def applyEditReqs (s : Store) (reqs : List (Patch × Nat)) : Store :=
  reqs.foldl (fun st r => editPersisted st r.1 r.2) s

/-- C2 amended: starting from a store with distinct appointment ids that
satisfies slot exclusivity, after any sequence of `editAppointment`
requests (the successful ones applied) there is still at most one
non-cancelled appointment per (doctor, date, time); the create path gives
no such guarantee (see `createAppointment_breaks_slotExclusive`). -/
theorem slotExclusive_after_edit_sequence
    (reqs : List (Patch × Nat)) (s : Store)
    (hnd : TurnoIdsNodup s) (hex : slotExclusive s) :
    slotExclusive (applyEditReqs s reqs) := by
  induction reqs generalizing s with
  | nil => exact hex
  | cons r rest ih =>
    obtain ⟨hnd', hex'⟩ := editPersisted_preserves_invariants s r.1 r.2 hnd hex
    exact ih (editPersisted s r.1 r.2) hnd' hex'

/-- Witness for the amended C2 at a concrete input: a two-edit sequence on
`demoStore` (move appointment 7 to 10:30, then try to re-assign its doctor
— which fails) keeps slot exclusivity. -/
theorem slotExclusive_after_edit_sequence_witness :
    (TurnoIdsNodup demoStore ∧ slotExclusive demoStore) ∧
    slotExclusive (applyEditReqs demoStore
      [(c9Patch, 7), ({ Patch.empty with doctor := some 3 }, 7)]) :=
  ⟨⟨by decide, by decide⟩,
    slotExclusive_after_edit_sequence
      [(c9Patch, 7), ({ Patch.empty with doctor := some 3 }, 7)] demoStore
      (by decide) (by decide)⟩
